import Mathlib

/-!
Verification development for the `twpca` repository (`twpca/model.py`).

Shallow embedding conventions:
* A data entry of the 3D input array is `Option α` over an idealized field `α`
  (`ℚ` for concrete evaluation, `ℝ` for the positivity-transform layer):
  `none` models a NaN entry, `some q` a finite value.  (`np.isfinite`
  becomes `Option.isSome`, `np.nan_to_num` becomes `Option.getD · 0`.)
* Collaborator modules that are not part of `src/` (`twpca.warp`,
  `twpca.regularizers`, `numpy.linalg.lstsq`) are modelled abstractly, as
  function-valued fields / parameters: no settled claim depends on their
  internals, only on how `model.py` composes them.
* TensorFlow graph construction plus `Session.run` is modelled by direct
  functional evaluation; exceptions are modelled by `Except` / explicit
  result constructors.
-/

namespace TWPCA

/-- A 3D data array indexed (trial, time, channel); `none` models NaN. -/
abbrev Tensor (α : Type) (I T N : ℕ) := Fin I → Fin T → Fin N → Option α

/-- `np.isfinite` on one entry of the idealized data array. -/
def isfinite {α : Type} (e : Option α) : Bool := e.isSome

/-- `np.nan_to_num` on one entry: NaN becomes `0`, finite values unchanged. -/
def nanToNum {α : Type} [Zero α] (e : Option α) : α := e.getD 0

/-- `self._mask = tf.constant(np.isfinite(X), dtype=tf.float32)`:
the 0/1-valued mask tensor (model.py lines 100, 102). -/
def maskF {α : Type} [Zero α] [One α] {I T N : ℕ} (X : Tensor α I T N)
    (i : Fin I) (j : Fin T) (n : Fin N) : α :=
  if isfinite (X i j n) then 1 else 0

/-- `self.X = tf.constant(np.nan_to_num(np_X))`: the NaN-zeroed data tensor
(model.py line 96). -/
def storedData {α : Type} [Zero α] {I T N : ℕ} (X : Tensor α I T N)
    (i : Fin I) (j : Fin T) (n : Fin N) : α :=
  nanToNum (X i j n)

/-- `self._num_datapoints = np.sum(np_mask)` (model.py line 101):
the sum of the boolean mask, i.e. the number of `True` entries. -/
def numDatapoints {α : Type} {I T N : ℕ} (X : Tensor α I T N) : ℕ :=
  ∑ p : Fin I × Fin T × Fin N, if isfinite (X p.1 p.2.1 p.2.2) then 1 else 0

/-- The set of mask-valid (finite) entry positions. -/
def validEntries {α : Type} {I T N : ℕ} (X : Tensor α I T N) :
    Finset (Fin I × Fin T × Fin N) :=
  Finset.univ.filter (fun p => isfinite (X p.1 p.2.1 p.2.2) = true)

/-- `np.all(np_mask, axis=-1)` at (trial `i`, time `j`): every channel of
trial `i` is finite at time `j`. -/
def allRowFinite {α : Type} {I T N : ℕ} (X : Tensor α I T N)
    (i : Fin I) (j : Fin T) : Bool :=
  decide (∀ n : Fin N, isfinite (X i j n) = true)

/-- `np.argmax` of a 1D boolean array: index of the first `True`, and `0`
when every entry is `False` (then the maximum, `False`, first occurs at 0). -/
def npArgmaxBool {T : ℕ} (f : Fin T → Bool) : ℕ :=
  match Fin.find (fun j => f j = true) with
  | some j => j.val
  | none => 0

/-- `rev_last_idx = np.argmax(np.all(np_mask, axis=-1)[:, ::-1], axis=1)`
(model.py line 107): position `j` of the time-reversed trial is position
`Fin.rev j` (= `T - 1 - j`) of the original trial. -/
def revLastIdx {α : Type} {I T N : ℕ} (X : Tensor α I T N) (i : Fin I) : ℕ :=
  npArgmaxBool (fun j : Fin T => allRowFinite X i j.rev)

/-- `self.last_idx = n_timesteps - rev_last_idx` (model.py line 108). -/
def lastIdx {α : Type} {I T N : ℕ} (X : Tensor α I T N) (i : Fin I) : ℕ :=
  T - revLastIdx X i

/-- A fitted `TWPCA` model over field `α`, with `I` trials, `T` timesteps,
shared length `S`, `N` neurons/channels, `K` components, and warp-parameter
type `W`.  The factor fields hold the *effective* values
(`self._params['time'] / ['neuron'] / ['trial']`, model.py lines 126-129);
`trial` is meaningful only when `fit_trial_factors = true`, mirroring the
conditional dictionary entry.  The collaborator functions from
`twpca.warp` / `twpca.regularizers` (not part of `src/`) are abstract
fields: `warpApply f w` is `warp.warp(f, w)` applying each trial's forward
warp, and the four `reg·` fields are the attached regularizers. -/
structure Model (α : Type) [Field α] (I T S N K : ℕ) (W : Type) where
  fit_trial_factors : Bool
  time : Fin S → Fin K → α
  neuron : Fin N → Fin K → α
  trial : Fin I → Fin K → α
  warpParams : W
  warpApply : (Fin I → Fin S → Fin K → α) → W → (Fin I → Fin T → Fin K → α)
  regTime : (Fin S → Fin K → α) → α
  regNeuron : (Fin N → Fin K → α) → α
  regTrial : (Fin I → Fin K → α) → α
  regWarp : W → α
  X : Tensor α I T N

variable {α : Type} [Field α] {I T S N K : ℕ} {W : Type}

/-- `tf.tile(tf.expand_dims(self._params['time'], [0]), [n_trials, 1, 1])`
(model.py line 132): the shared time-factor matrix replicated per trial. -/
def tiledTime (m : Model α I T S N K W) : Fin I → Fin S → Fin K → α :=
  fun _ s k => m.time s k

/-- `self._warped_time_factors = warp.warp(<tiled time factors>,
self._params['warp'])` (model.py line 132). -/
def warpedTimeFactors (m : Model α I T S N K W) : Fin I → Fin T → Fin K → α :=
  m.warpApply (tiledTime m) m.warpParams

/-- `self.X_pred` (model.py lines 134-139): `tf.einsum('ik,ijk,nk->ijn', ...)`
when trial factors are fitted, `tf.einsum('ijk,nk->ijn', ...)` otherwise;
both einsums contract over the component axis `k`. -/
def X_pred (m : Model α I T S N K W) (i : Fin I) (j : Fin T) (n : Fin N) : α :=
  if m.fit_trial_factors then
    ∑ k : Fin K, m.trial i k * warpedTimeFactors m i j k * m.neuron n k
  else
    ∑ k : Fin K, warpedTimeFactors m i j k * m.neuron n k

/-- `self.recon_cost = tf.reduce_sum(self._mask * (self.X_pred - self.X)**2)
/ self._num_datapoints` (model.py line 143). -/
def reconCost (m : Model α I T S N K W) : α :=
  (∑ p : Fin I × Fin T × Fin N,
      maskF m.X p.1 p.2.1 p.2.2 *
        (X_pred m p.1 p.2.1 p.2.2 - storedData m.X p.1 p.2.1 p.2.2) ^ 2) /
    (numDatapoints m.X : α)

/-- `TWPCA.regularization` (model.py line 258): the sum of
`self._regularizers[key](param)` over the entries of `self._params`, whose
keys after `fit` are `'warp'`, `'time'`, `'neuron'`, plus `'trial'` exactly
when `fit_trial_factors` is set (model.py lines 111, 126-129). -/
def regularization (m : Model α I T S N K W) : α :=
  m.regWarp m.warpParams + m.regTime m.time + m.regNeuron m.neuron +
    (if m.fit_trial_factors then m.regTrial m.trial else 0)

/-- `self.objective = self.recon_cost + self.regularization`
(model.py line 144). -/
def objective (m : Model α I T S N K W) : α :=
  reconCost m + regularization m

/-- `TWPCA.params` (model.py lines 179-183): a snapshot of the values of
`self._params` — warp parameters plus the *effective* factor matrices, the
`'trial'` entry existing exactly when `fit_trial_factors` is set. -/
def paramsSnapshot (m : Model α I T S N K W) :
    W × (Fin S → Fin K → α) × (Fin N → Fin K → α) ×
      Option (Fin I → Fin K → α) :=
  (m.warpParams, m.time, m.neuron,
    if m.fit_trial_factors then some m.trial else none)

/-! ### Trainer (model.py lines 78-90, 145, 162-163, 167-177)

The gradient optimizer is the spec's pluggable black box: an abstract
state type `σ`, an objective read-out `objF : σ → β` and a step
`stepF : lr → σ → σ`.  One `sess.run([objective, train_op])` records the
current objective value and performs one optimizer step. -/

/-- Optimization-context state visible to the trainer: the abstract
backend state plus `self.obj_history`. -/
structure TrainerState (σ β : Type) where
  mstate : σ
  obj_history : List β

/-- The list comprehension of `TWPCA.train` (model.py lines 175-177): run
`niter` iterations, each recording the objective value and applying one
optimizer step at learning rate `lr`; returns the final backend state and
the list of recorded values.  (The progress bar only selects the iterator
and is observational.) -/
def trainSteps {σ β : Type} (objF : σ → β) (stepF : ℚ → σ → σ) (lr : ℚ) :
    ℕ → σ → σ × List β
  | 0, s => (s, [])
  | n + 1, s =>
    let rest := trainSteps objF stepF lr n (stepF lr s)
    (rest.1, objF s :: rest.2)

/-- `TWPCA.train(niter, lr)` (model.py lines 167-177):
`self.obj_history += [...]` appends the recorded values. -/
def train {σ β : Type} (objF : σ → β) (stepF : ℚ → σ → σ)
    (ts : TrainerState σ β) (niter : ℕ) (lr : ℚ) : TrainerState σ β :=
  ⟨(trainSteps objF stepF lr niter ts.mstate).1,
    ts.obj_history ++ (trainSteps objF stepF lr niter ts.mstate).2⟩

/-- A `niter` or `lr` argument of `fit`: a scalar or a sequence
(`np.iterable` distinguishes the two). -/
inductive SchedArg (γ : Type) where
  | scalar : γ → SchedArg γ
  | seq : List γ → SchedArg γ

/-- model.py lines 78-90: scalars become singleton phases; two sequences
must have equal length, else `ValueError("niter and lr must have the same
length.")`; a scalar paired with a sequence raises
`ValueError("niter and lr must either be numbers or iterables of the same
length.")`. -/
def normalizeSchedule : SchedArg ℕ → SchedArg ℚ →
    Except String (List (ℕ × ℚ))
  | .scalar n, .scalar r => .ok [(n, r)]
  | .seq ns, .seq rs =>
    if ns.length = rs.length then .ok (ns.zip rs)
    else .error "niter and lr must have the same length."
  | _, _ =>
    .error "niter and lr must either be numbers or iterables of the same length."

/-- The training part of `TWPCA.fit` (model.py lines 78-90, 145, 162-163):
normalize the schedule (raising before any optimizer step on a mismatch),
start with `self.obj_history = []`, then run `self.train(*args)` for each
phase of `zip(niter, lr)`.  `Except.error` models the `ValueError`
propagating with no optimizer step run and no state mutated. -/
def fitTrain {σ β : Type} (objF : σ → β) (stepF : ℚ → σ → σ) (s0 : σ)
    (niter : SchedArg ℕ) (lr : SchedArg ℚ) :
    Except String (TrainerState σ β) :=
  match normalizeSchedule niter lr with
  | .error e => .error e
  | .ok phases =>
    .ok (phases.foldl (fun ts p => train objF stepF ts p.1 p.2) ⟨s0, []⟩)

/-! ### Predict (model.py lines 204-253)

`predict` is dispatched on its argument: `None`, a numpy ndarray, or
anything else.  The successful held-out-channel branch (lines 241-251:
reshape, mask rows with any non-finite channel, `np.linalg.lstsq`,
reconstruct) is abstracted into a single parameter `ols`, since
`np.linalg.lstsq` is an external floating-point routine and no settled
claim depends on the branch's value. -/

/-- The argument of `TWPCA.predict` on a fitted model: `None`, an ndarray
of any 3D shape, or a value of any other type (e.g. a `tf.Tensor`). -/
inductive PredictInput (α : Type) where
  | none : PredictInput α
  | ndarray : (I' T' N' : ℕ) → (Fin I' → Fin T' → Fin N' → Option α) →
      PredictInput α
  | other : PredictInput α

/-- Outcome of `TWPCA.predict`: a returned prediction tensor, a raised
`ValueError`, a raised `AttributeError`, or a raised `UnboundLocalError`
(reaching `return X_pred` with `X_pred` never assigned). -/
inductive PredictResult (α : Type) where
  | pred : (I' T' N' : ℕ) → (Fin I' → Fin T' → Fin N' → α) → PredictResult α
  | valueError : String → PredictResult α
  | attributeError : String → PredictResult α
  | unboundLocalError : PredictResult α

/-- `TWPCA.predict` on a fitted model (model.py lines 221-253).
With `X = None`, returns the fitted prediction tensor.  With an ndarray:
when `fit_trial_factors` is set, line 232 evaluates
`self.self._params['trial']` — `self` has no attribute `self`, so an
`AttributeError` is raised before the shape checks; otherwise the trial
count is checked, then the timepoint count, and on success the
least-squares refit branch `ols` produces the prediction in the input's
shape.  With any other argument, no branch assigns `X_pred` and the
`return` raises `UnboundLocalError`. -/
def predictModel (m : Model α I T S N K W)
    (ols : (I' T' N' : ℕ) → (Fin I → Fin T → Fin K → α) →
      (Fin I' → Fin T' → Fin N' → Option α) → (Fin I' → Fin T' → Fin N' → α)) :
    PredictInput α → PredictResult α
  | .none => .pred I T N (fun i j n => X_pred m i j n)
  | .ndarray I' T' N' data =>
    if m.fit_trial_factors then
      .attributeError "TWPCA object has no attribute self"
    else if I ≠ I' then
      .valueError "Data does not have the expected number of trials."
    else if T ≠ T' then
      .valueError "Data does not have the expected number of timepoints."
    else
      .pred I' T' N' (ols I' T' N' (warpedTimeFactors m) data)
  | .other => .unboundLocalError

/-! ### Positivity transform (model.py lines 125-129)

`rectifier = tf.nn.softplus if self.nonneg else tf.identity`, applied to
the raw factor variables to produce the effective `self._params` entries.
This layer is over `ℝ` since softplus needs `exp`/`log`. -/

/-- `tf.nn.softplus`: `x ↦ log(1 + exp x)`. -/
noncomputable def softplus (x : ℝ) : ℝ := Real.log (1 + Real.exp x)

/-- `rectifier = tf.nn.softplus if self.nonneg else tf.identity`
(model.py line 125). -/
noncomputable def rectifier (nonneg : Bool) : ℝ → ℝ :=
  if nonneg then softplus else id

/-- The raw factor variables `self._raw_params['time'/'neuron'/'trial']`
(model.py lines 120-123). -/
structure RawFactors (I S N K : ℕ) where
  time : Fin S → Fin K → ℝ
  neuron : Fin N → Fin K → ℝ
  trial : Fin I → Fin K → ℝ

/-- model.py lines 126-129: the model's effective factor fields (the
`self._params` entries consumed by the reconstruction, the regularization
and the params snapshot) are the rectifier applied entrywise to the raw
variables. -/
noncomputable def applyRectifier (nonneg : Bool) (raw : RawFactors I S N K)
    (m : Model ℝ I T S N K W) : Model ℝ I T S N K W :=
  { m with
    time := fun s k => rectifier nonneg (raw.time s k)
    neuron := fun n k => rectifier nonneg (raw.neuron n k)
    trial := fun i k => rectifier nonneg (raw.trial i k) }

/-! ### Concrete instances, for evaluating the development on small inputs -/

/-- A small concrete dataset over `ℚ`: 1 trial, 2 timesteps, 1 channel,
with a NaN at time 1. -/
def X7 : Tensor ℚ 1 2 1 := fun _ j _ => if j.val = 0 then some 5 else none

/-- A concrete dataset with 2 trials, 2 timesteps, 1 channel and one NaN
entry (trial 0, time 1). -/
def XQ : Tensor ℚ 2 2 1 := fun i j _ =>
  if i.val = 0 ∧ j.val = 1 then none else some ((i.val : ℚ) + 2 * (j.val : ℚ))

/-- A concrete fitted model over `ℚ` without trial factors (shared length
equal to the timestep count, identity warp operator). -/
def mQ : Model ℚ 2 2 2 1 1 Unit where
  fit_trial_factors := false
  time := fun s _ => (s.val : ℚ) + 1
  neuron := fun _ _ => 2
  trial := fun _ _ => 3
  warpParams := ()
  warpApply := fun f _ => f
  regTime := fun f => f 0 0
  regNeuron := fun f => f 0 0
  regTrial := fun f => f 0 0
  regWarp := fun _ => 0
  X := XQ

/-- The same concrete model with trial factors enabled. -/
def mQt : Model ℚ 2 2 2 1 1 Unit := { mQ with fit_trial_factors := true }

/-- A concrete stand-in for the abstracted least-squares branch. -/
def ols0 : (I' T' N' : ℕ) → (Fin 2 → Fin 2 → Fin 1 → ℚ) →
    (Fin I' → Fin T' → Fin N' → Option ℚ) → (Fin I' → Fin T' → Fin N' → ℚ) :=
  fun _ _ _ _ _ _ _ _ => 0

/-- A concrete held-out dataset with the wrong trial count (3 instead
of 2). -/
def dataBad : Fin 3 → Fin 2 → Fin 1 → Option ℚ := fun _ _ _ => some 0

/-- A concrete raw-factor state over `ℝ`. -/
noncomputable def rawR : RawFactors 1 1 1 1 :=
  ⟨fun _ _ => 0, fun _ _ => 0, fun _ _ => 0⟩

/-- A concrete model over `ℝ` with trial factors enabled, used to
instantiate the positivity-transform layer. -/
noncomputable def mR : Model ℝ 1 1 1 1 1 Unit where
  fit_trial_factors := true
  time := fun _ _ => 0
  neuron := fun _ _ => 0
  trial := fun _ _ => 0
  warpParams := ()
  warpApply := fun f _ => f
  regTime := fun _ => 0
  regNeuron := fun _ => 0
  regTrial := fun _ => 0
  regWarp := fun _ => 0
  X := fun _ _ _ => none

/-! ## Theorems -/

/-- C7: after `fit`, every mask entry is 1 exactly when the corresponding
data entry is finite and 0 otherwise, and the stored data tensor has every
NaN entry replaced by zero and every finite entry unchanged
(model.py lines 92-102). -/
theorem mask_finiteness_and_nan_zeroing (X : Tensor α I T N)
    (i : Fin I) (j : Fin T) (n : Fin N) :
    (maskF X i j n = (1 : α) ↔ isfinite (X i j n) = true) ∧
    (isfinite (X i j n) = false → maskF X i j n = (0 : α)) ∧
    (∀ q : α, X i j n = some q → storedData X i j n = q) ∧
    (X i j n = none → storedData X i j n = 0) := by
  refine ⟨?_, ?_, ?_, ?_⟩
  · unfold maskF
    by_cases h : isfinite (X i j n) = true
    · simp [h]
    · simp [h]
  · intro h
    unfold maskF
    simp [h]
  · intro q hq
    unfold storedData nanToNum
    rw [hq]
    rfl
  · intro h
    unfold storedData nanToNum
    rw [h]
    rfl

theorem mask_finiteness_and_nan_zeroing_witness :
    X7 0 0 0 = some 5 ∧ X7 0 1 0 = none ∧
    storedData X7 0 0 0 = 5 ∧ storedData X7 0 1 0 = 0 :=
  ⟨by decide, by decide,
    (mask_finiteness_and_nan_zeroing X7 0 0 0).2.2.1 5 (by decide),
    (mask_finiteness_and_nan_zeroing X7 0 1 0).2.2.2 (by decide)⟩

/-- C6: `last_idx` for trial `i` equals the timestep count minus the index,
counting in the time-reversed trial, of the first timestep at which all
channels are finite; when no timestep has all channels finite, it equals
the timestep count (model.py lines 104-108). -/
theorem last_idx_spec {β : Type} {I T N : ℕ} (X : Tensor β I T N) (i : Fin I) :
    (∀ j : Fin T,
      (allRowFinite X i j.rev = true ∧
        ∀ k : Fin T, k < j → allRowFinite X i k.rev = false) →
      lastIdx X i = T - j.val) ∧
    ((∀ j : Fin T, allRowFinite X i j = false) → lastIdx X i = T) := by
  constructor
  · rintro j ⟨hj, hmin⟩
    have hfind :
        Fin.find (fun t : Fin T => allRowFinite X i t.rev = true) = some j := by
      rw [Fin.find_eq_some_iff]
      refine ⟨hj, fun k hk => ?_⟩
      by_contra hlt
      push_neg at hlt
      rw [hmin k hlt] at hk
      exact Bool.noConfusion hk
    unfold lastIdx revLastIdx npArgmaxBool
    rw [hfind]
  · intro hall
    have hfind :
        Fin.find (fun t : Fin T => allRowFinite X i t.rev = true) = none := by
      rw [Fin.find_eq_none_iff]
      intro t ht
      rw [hall t.rev] at ht
      exact Bool.noConfusion ht
    unfold lastIdx revLastIdx npArgmaxBool
    rw [hfind]
    rfl

theorem last_idx_spec_witness :
    (allRowFinite X7 0 (Fin.rev 1) = true ∧
      ∀ k : Fin 2, k < 1 → allRowFinite X7 0 k.rev = false) ∧
    lastIdx X7 0 = 2 - 1 :=
  ⟨⟨by decide, by decide⟩, (last_idx_spec X7 0).1 1 ⟨by decide, by decide⟩⟩

/-- C10: `predict` on a fitted model, called with an argument that is
neither `None` nor an ndarray, assigns `X_pred` on no branch, so the call
fails with an unbound-local-variable error instead of returning a
prediction or raising a taxonomy error (model.py lines 224-253). -/
theorem predict_other_input_unbound_local (m : Model α I T S N K W)
    (ols : (I' T' N' : ℕ) → (Fin I → Fin T → Fin K → α) →
      (Fin I' → Fin T' → Fin N' → Option α) →
      (Fin I' → Fin T' → Fin N' → α)) :
    predictModel m ols PredictInput.other = PredictResult.unboundLocalError :=
  rfl

/-- C4: `fit` with exactly one of `niter`/`lr` a sequence, or with two
sequences of different lengths, raises the configuration `ValueError`
(model.py lines 78-90) before any optimizer step runs: the result is the
error for every optimizer (`objF`, `stepF`) and every starting state, and
no trained state is produced. -/
theorem fit_schedule_mismatch_raises {σ β : Type} (objF : σ → β)
    (stepF : ℚ → σ → σ) (s0 : σ) :
    (∀ (n : ℕ) (rs : List ℚ),
      fitTrain objF stepF s0 (SchedArg.scalar n) (SchedArg.seq rs) =
        Except.error
          "niter and lr must either be numbers or iterables of the same length.") ∧
    (∀ (ns : List ℕ) (r : ℚ),
      fitTrain objF stepF s0 (SchedArg.seq ns) (SchedArg.scalar r) =
        Except.error
          "niter and lr must either be numbers or iterables of the same length.") ∧
    (∀ (ns : List ℕ) (rs : List ℚ), ns.length ≠ rs.length →
      fitTrain objF stepF s0 (SchedArg.seq ns) (SchedArg.seq rs) =
        Except.error "niter and lr must have the same length.") := by
  refine ⟨fun n rs => rfl, fun ns r => rfl, fun ns rs h => ?_⟩
  have hsched : normalizeSchedule (SchedArg.seq ns) (SchedArg.seq rs) =
      Except.error "niter and lr must have the same length." := by
    simp [normalizeSchedule, h]
  unfold fitTrain
  rw [hsched]

theorem fit_schedule_mismatch_raises_witness :
    ([1].length ≠ ([] : List ℚ).length) ∧
    fitTrain (fun s : ℚ => s) (fun _ s => s) (0 : ℚ)
        (SchedArg.seq [1]) (SchedArg.seq []) =
      Except.error "niter and lr must have the same length." :=
  ⟨by decide,
    (fit_schedule_mismatch_raises (fun s : ℚ => s) (fun _ s => s) 0).2.2
      [1] [] (by decide)⟩

/-- The list of objective values recorded by one training phase has exactly
one entry per iteration. -/
theorem trainSteps_length {σ β : Type} (objF : σ → β) (stepF : ℚ → σ → σ)
    (lr : ℚ) : ∀ (n : ℕ) (s : σ), ((trainSteps objF stepF lr n s).2).length = n
  | 0, _ => rfl
  | n + 1, s => by
    unfold trainSteps
    simp [trainSteps_length objF stepF lr n (stepF lr s)]

/-- Folding `train` over a list of phases grows the objective history by
exactly the sum of the phase iteration counts. -/
theorem foldl_train_history_length {σ β : Type} (objF : σ → β)
    (stepF : ℚ → σ → σ) :
    ∀ (calls : List (ℕ × ℚ)) (ts : TrainerState σ β),
      ((calls.foldl (fun t p => train objF stepF t p.1 p.2) ts).obj_history).length =
        ts.obj_history.length + (calls.map Prod.fst).sum
  | [], ts => by simp
  | p :: ps, ts => by
    have ih := foldl_train_history_length objF stepF ps
      (train objF stepF ts p.1 p.2)
    simp only [List.foldl_cons, List.map_cons, List.sum_cons] at *
    rw [ih]
    unfold train
    simp [trainSteps_length]
    ring

/-- C5: the objective history is append-only: each `train(niter, lr)` call
appends exactly `niter` values to the existing history (model.py lines
167-177); a single `fit` call records, for a scalar schedule, `niter`
values, and for a phase schedule, the sum of the phase iteration counts
(model.py lines 145, 162-163); the accumulation also holds across repeated
partial-fit (`train`) calls. -/
theorem obj_history_append_only {σ β : Type} (objF : σ → β)
    (stepF : ℚ → σ → σ) :
    (∀ (ts : TrainerState σ β) (niter : ℕ) (lr : ℚ),
      ∃ new : List β,
        (train objF stepF ts niter lr).obj_history = ts.obj_history ++ new ∧
        new.length = niter) ∧
    (∀ (s0 : σ) (n : ℕ) (r : ℚ) (ts : TrainerState σ β),
      fitTrain objF stepF s0 (SchedArg.scalar n) (SchedArg.scalar r) =
        Except.ok ts → ts.obj_history.length = n) ∧
    (∀ (s0 : σ) (ns : List ℕ) (rs : List ℚ) (ts : TrainerState σ β),
      ns.length = rs.length →
      fitTrain objF stepF s0 (SchedArg.seq ns) (SchedArg.seq rs) =
        Except.ok ts → ts.obj_history.length = ns.sum) ∧
    (∀ (ts : TrainerState σ β) (calls : List (ℕ × ℚ)),
      ((calls.foldl (fun t p => train objF stepF t p.1 p.2) ts).obj_history).length =
        ts.obj_history.length + (calls.map Prod.fst).sum) := by
  refine ⟨?_, ?_, ?_, fun ts calls => foldl_train_history_length objF stepF calls ts⟩
  · intro ts niter lr
    exact ⟨(trainSteps objF stepF lr niter ts.mstate).2, rfl,
      trainSteps_length objF stepF lr niter ts.mstate⟩
  · intro s0 n r ts h
    unfold fitTrain normalizeSchedule at h
    simp only [Except.ok.injEq] at h
    subst h
    have := foldl_train_history_length objF stepF [(n, r)]
      (⟨s0, []⟩ : TrainerState σ β)
    simpa using this
  · intro s0 ns rs ts hlen h
    have hsched : normalizeSchedule (SchedArg.seq ns) (SchedArg.seq rs) =
        Except.ok (ns.zip rs) := by
      simp [normalizeSchedule, hlen]
    unfold fitTrain at h
    rw [hsched] at h
    simp only [Except.ok.injEq] at h
    subst h
    have := foldl_train_history_length objF stepF (ns.zip rs)
      (⟨s0, []⟩ : TrainerState σ β)
    rw [this]
    simp [List.map_fst_zip ns rs hlen.le]

theorem obj_history_append_only_witness :
    ([2, 3] : List ℕ).length = ([1, 1] : List ℚ).length ∧
    fitTrain (fun s : ℚ => s) (fun _ s => s) (0 : ℚ)
        (SchedArg.seq [2, 3]) (SchedArg.seq [1, 1]) =
      Except.ok (⟨0, [0, 0, 0, 0, 0]⟩ : TrainerState ℚ ℚ) ∧
    (⟨0, [0, 0, 0, 0, 0]⟩ : TrainerState ℚ ℚ).obj_history.length = [2, 3].sum :=
  ⟨by decide, by rfl,
    (obj_history_append_only (fun s : ℚ => s) (fun _ s => s)).2.2.1
      0 [2, 3] [1, 1] ⟨0, [0, 0, 0, 0, 0]⟩ (by decide) (by rfl)⟩

/-- C1: after `fit`, the reconstruction cost is the sum of squared errors
between prediction and NaN-zeroed data over the entries whose mask value is
1, divided by the number of mask-valid entries, and the total objective is
that cost plus the regularizers of the groups present — `time`, `neuron`,
`warp`, and `trial` exactly when trial factors are enabled (model.py lines
141-145, 255-258). -/
theorem recon_cost_and_objective_spec (m : Model α I T S N K W) :
    (∀ p : Fin I × Fin T × Fin N,
      p ∈ validEntries m.X ↔ maskF m.X p.1 p.2.1 p.2.2 = (1 : α)) ∧
    reconCost m =
      (∑ p ∈ validEntries m.X,
          (X_pred m p.1 p.2.1 p.2.2 - storedData m.X p.1 p.2.1 p.2.2) ^ 2) /
        ((validEntries m.X).card : α) ∧
    objective m =
      reconCost m +
        (m.regTime m.time + m.regNeuron m.neuron + m.regWarp m.warpParams +
          (if m.fit_trial_factors then m.regTrial m.trial else 0)) := by
  have hmem : ∀ p : Fin I × Fin T × Fin N,
      p ∈ validEntries m.X ↔ maskF m.X p.1 p.2.1 p.2.2 = (1 : α) := by
    intro p
    unfold validEntries maskF
    rw [Finset.mem_filter]
    by_cases h : isfinite (m.X p.1 p.2.1 p.2.2) = true
    · simp [h]
    · simp [h]
  refine ⟨hmem, ?_, ?_⟩
  · have hcard : numDatapoints m.X = (validEntries m.X).card := by
      unfold numDatapoints validEntries
      rw [Finset.card_filter]
    have hsum :
        (∑ p : Fin I × Fin T × Fin N,
            maskF m.X p.1 p.2.1 p.2.2 *
              (X_pred m p.1 p.2.1 p.2.2 - storedData m.X p.1 p.2.1 p.2.2) ^ 2) =
          ∑ p ∈ validEntries m.X,
            (X_pred m p.1 p.2.1 p.2.2 - storedData m.X p.1 p.2.1 p.2.2) ^ 2 := by
      unfold validEntries
      rw [Finset.sum_filter]
      apply Finset.sum_congr rfl
      intro p _
      unfold maskF
      by_cases h : isfinite (m.X p.1 p.2.1 p.2.2) = true
      · simp [h]
      · simp [h]
    unfold reconCost
    rw [hsum, hcard]
  · unfold objective regularization
    ring

theorem recon_cost_and_objective_spec_witness :
    ((0, 0, 0) : Fin 2 × Fin 2 × Fin 1) ∈ validEntries mQ.X ↔
      maskF mQ.X 0 0 0 = (1 : ℚ) :=
  (recon_cost_and_objective_spec mQ).1 (0, 0, 0)

/-- C2: the predicted tensor entry at (trial `i`, time `j`, channel `n`)
is the contraction over components `k` of the warped time factors with the
neuron factors, additionally scaled by the trial-factor row exactly when
trial factors are enabled; the warped time factors are the shared
time-factor matrix replicated per trial and mapped through the per-trial
forward warp (model.py lines 131-139). -/
theorem prediction_contraction_spec (m : Model α I T S N K W)
    (i : Fin I) (j : Fin T) (n : Fin N) :
    warpedTimeFactors m =
      m.warpApply (fun _ s k => m.time s k) m.warpParams ∧
    (m.fit_trial_factors = false →
      X_pred m i j n = ∑ k : Fin K, warpedTimeFactors m i j k * m.neuron n k) ∧
    (m.fit_trial_factors = true →
      X_pred m i j n =
        ∑ k : Fin K,
          m.trial i k * warpedTimeFactors m i j k * m.neuron n k) := by
  refine ⟨rfl, fun h => ?_, fun h => ?_⟩ <;>
    unfold X_pred <;> rw [h] <;> simp

theorem prediction_contraction_spec_witness :
    mQ.fit_trial_factors = false ∧
    X_pred mQ 0 0 0 = ∑ k : Fin 1, warpedTimeFactors mQ 0 0 k * mQ.neuron 0 k ∧
    mQt.fit_trial_factors = true ∧
    X_pred mQt 0 0 0 =
      ∑ k : Fin 1, mQt.trial 0 k * warpedTimeFactors mQt 0 0 k * mQt.neuron 0 k :=
  ⟨rfl, (prediction_contraction_spec mQ 0 0 0).2.1 rfl, rfl,
    (prediction_contraction_spec mQt 0 0 0).2.2 rfl⟩

/-- C3 (code bug): on a fitted model with trial factors enabled, `predict`
on any ndarray raises an `AttributeError` — line 232 of model.py reads
`self.self._params['trial']` and `self` has no attribute `self` — instead
of scaling the warped time factors by the trial-factor rows and refitting
the channel factors by least squares as the spec describes. -/
theorem predict_trial_factors_attribute_bug (m : Model α I T S N K W)
    (ols : (I' T' N' : ℕ) → (Fin I → Fin T → Fin K → α) →
      (Fin I' → Fin T' → Fin N' → Option α) →
      (Fin I' → Fin T' → Fin N' → α))
    (I' T' N' : ℕ) (data : Fin I' → Fin T' → Fin N' → Option α)
    (h : m.fit_trial_factors = true) :
    predictModel m ols (PredictInput.ndarray I' T' N' data) =
      PredictResult.attributeError "TWPCA object has no attribute self" := by
  unfold predictModel
  rw [h]
  simp

theorem predict_trial_factors_attribute_bug_witness :
    mQt.fit_trial_factors = true ∧
    predictModel mQt ols0 (PredictInput.ndarray 2 2 1 (fun _ _ _ => some 0)) =
      PredictResult.attributeError "TWPCA object has no attribute self" :=
  ⟨rfl, predict_trial_factors_attribute_bug mQt ols0 2 2 1 _ rfl⟩

/-- C8 (counterexample): on a concrete fitted model with trial factors
enabled and a held-out array with the wrong trial count, `predict` fails
with the `AttributeError` of the `self.self` typo, not with either
shape-mismatch `ValueError`. -/
theorem predict_shape_mismatch_counterexample :
    predictModel mQt ols0 (PredictInput.ndarray 3 2 1 dataBad) =
      PredictResult.attributeError "TWPCA object has no attribute self" ∧
    PredictResult.attributeError "TWPCA object has no attribute self" ≠
      (PredictResult.valueError "Data does not have the expected number of trials." :
        PredictResult ℚ) ∧
    PredictResult.attributeError "TWPCA object has no attribute self" ≠
      (PredictResult.valueError "Data does not have the expected number of timepoints." :
        PredictResult ℚ) := by
  refine ⟨rfl, ?_, ?_⟩ <;> intro h <;> exact PredictResult.noConfusion h

/-- C8 (amended): on a fitted model with trial factors disabled, `predict`
on an ndarray whose trial count differs raises the trial-count
`ValueError`, and on one whose trial count matches but whose timepoint
count differs raises the timepoint-count `ValueError`, before any
prediction is computed (model.py lines 236-240); with trial factors
enabled the call instead fails with the `AttributeError` of line 232. -/
theorem predict_shape_mismatch_amended (m : Model α I T S N K W)
    (ols : (I' T' N' : ℕ) → (Fin I → Fin T → Fin K → α) →
      (Fin I' → Fin T' → Fin N' → Option α) →
      (Fin I' → Fin T' → Fin N' → α))
    (I' T' N' : ℕ) (data : Fin I' → Fin T' → Fin N' → Option α)
    (hm : m.fit_trial_factors = false) :
    (I ≠ I' →
      predictModel m ols (PredictInput.ndarray I' T' N' data) =
        PredictResult.valueError
          "Data does not have the expected number of trials.") ∧
    (I = I' → T ≠ T' →
      predictModel m ols (PredictInput.ndarray I' T' N' data) =
        PredictResult.valueError
          "Data does not have the expected number of timepoints.") := by
  constructor
  · intro hI
    unfold predictModel
    rw [hm]
    simp [hI]
  · intro hI hT
    unfold predictModel
    rw [hm]
    simp [hI, hT]

theorem predict_shape_mismatch_amended_witness :
    mQ.fit_trial_factors = false ∧ (2 : ℕ) ≠ 3 ∧
    predictModel mQ ols0 (PredictInput.ndarray 3 2 1 dataBad) =
      PredictResult.valueError
        "Data does not have the expected number of trials." :=
  ⟨rfl, by decide,
    (predict_shape_mismatch_amended mQ ols0 3 2 1 dataBad rfl).1 (by decide)⟩

/-- `softplus` is nonnegative: `exp x > 0`, so `1 + exp x ≥ 1` and its
logarithm is `≥ 0`. -/
theorem softplus_nonneg (x : ℝ) : 0 ≤ softplus x :=
  Real.log_nonneg (by linarith [Real.exp_pos x])

/-- C9: with `nonneg=True`, every entry of every effective factor matrix —
the values consumed by the reconstruction and regularization and returned
by the params snapshot — is the softplus of the corresponding raw
parameter, hence nonnegative, for every raw-parameter state; with
`nonneg=False`, each effective factor equals its raw parameter exactly
(model.py lines 125-129, 179-183). -/
theorem rectifier_effective_factors {I T S N K : ℕ} {W : Type}
    (nonneg : Bool) (raw : RawFactors I S N K) (m : Model ℝ I T S N K W) :
    (nonneg = true →
      (∀ s k, (applyRectifier nonneg raw m).time s k = softplus (raw.time s k) ∧
        0 ≤ (applyRectifier nonneg raw m).time s k) ∧
      (∀ n k, (applyRectifier nonneg raw m).neuron n k = softplus (raw.neuron n k) ∧
        0 ≤ (applyRectifier nonneg raw m).neuron n k) ∧
      (∀ i k, (applyRectifier nonneg raw m).trial i k = softplus (raw.trial i k) ∧
        0 ≤ (applyRectifier nonneg raw m).trial i k)) ∧
    (nonneg = false →
      (applyRectifier nonneg raw m).time = raw.time ∧
      (applyRectifier nonneg raw m).neuron = raw.neuron ∧
      (applyRectifier nonneg raw m).trial = raw.trial) ∧
    paramsSnapshot (applyRectifier nonneg raw m) =
      (m.warpParams, (applyRectifier nonneg raw m).time,
        (applyRectifier nonneg raw m).neuron,
        if m.fit_trial_factors then some ((applyRectifier nonneg raw m).trial)
        else none) ∧
    regularization (applyRectifier nonneg raw m) =
      m.regWarp m.warpParams +
        m.regTime ((applyRectifier nonneg raw m).time) +
        m.regNeuron ((applyRectifier nonneg raw m).neuron) +
        (if m.fit_trial_factors then
          m.regTrial ((applyRectifier nonneg raw m).trial) else 0) := by
  refine ⟨?_, ?_, rfl, rfl⟩
  · intro h
    subst h
    refine ⟨fun s k => ⟨?_, ?_⟩, fun n k => ⟨?_, ?_⟩, fun i k => ⟨?_, ?_⟩⟩ <;>
      simp [applyRectifier, rectifier, softplus_nonneg]
  · intro h
    subst h
    exact ⟨rfl, rfl, rfl⟩

theorem rectifier_effective_factors_witness :
    (true = true) ∧ 0 ≤ (applyRectifier true rawR mR).time 0 0 :=
  ⟨rfl, (((rectifier_effective_factors true rawR mR).1 rfl).1 0 0).2⟩

end TWPCA
